import Mathlib

/-!
Verification of the Al-Noor backend transaction controller
(`src/src/controllers/stripe/controller.js`, served by `app.js` at
`/v1/api/transactions` and `/v1/api/exportTransactionsToCSV`).

The JavaScript source is shallowly embedded:

* JS scalar values appearing in flattened records are modelled by `JVal`
  (strings, numbers as exact rationals, `NaN`, booleans, `undefined`).
* A Stripe charge as consumed by the controller is the structure `Charge`;
  every field is `Option`-valued because any property of a JS object may be
  absent (`undefined`).
* Exceptions (TypeError from property access on `undefined`, RangeError from
  `toISOString` on an invalid date) are modelled with `Except`.
* The external Stripe client is modelled by a script: the list of answers
  (a page, or a rejection) the external source gives to the successive
  `charges.list` calls issued by the pagination loop.
-/

namespace AlNoor

/-- A JavaScript scalar value as it can appear in a flattened record:
a string, a (finite) number, `NaN`, a boolean, or `undefined`.
Numbers are modelled as exact rationals. -/
inductive JVal where
  | str (s : String)
  | num (q : Rat)
  | nan
  | bool (b : Bool)
  | undef
deriving DecidableEq, Repr

/-- JS truthiness of a `JVal`: `""`, `0`, `NaN`, `false` and `undefined`
are falsy, everything else is truthy. -/
def JVal.truthy : JVal → Bool
  | .str s => decide (s ≠ "")
  | .num q => decide (q ≠ 0)
  | .nan => false
  | .bool b => b
  | .undef => false

/-- JS `a || b`: returns `a` when `a` is truthy, `b` otherwise. -/
def jor (a b : JVal) : JVal := if a.truthy then a else b

/-- A possibly-absent JS string property as a `JVal` (`undefined` when absent). -/
def ostr : Option String → JVal
  | none => .undef
  | some s => .str s

/-- A possibly-absent JS number property as a `JVal` (`undefined` when absent). -/
def onum : Option Int → JVal
  | none => .undef
  | some n => .num n

/-- A possibly-absent JS boolean property as a `JVal` (`undefined` when absent). -/
def obool : Option Bool → JVal
  | none => .undef
  | some b => .bool b

/-- JS `x / 100` where `x` is a possibly-absent integer property:
`undefined / 100` is `NaN`, otherwise the exact quotient. -/
def jdiv100 : Option Int → JVal
  | none => .nan
  | some n => .num ((n : Rat) / 100)

/-- JS truthiness of a possibly-absent string (`undefined` and `""` are falsy). -/
def truthyOptStr : Option String → Bool
  | none => false
  | some s => decide (s ≠ "")

/-! ## The charge data model

One structure per nested sub-object the controller dereferences.  All
fields are `Option`-valued: a JS property read yields `undefined` when the
property is missing. -/

structure Checks where
  address_line1_check : Option String
  address_zip_check : Option String
  cvc_check : Option String
deriving DecidableEq, Repr

structure Card where
  id : Option String
  name : Option String
  address_line1 : Option String
  address_line2 : Option String
  address_city : Option String
  address_state : Option String
  address_country : Option String
  address_zip : Option String
  checks : Option Checks
  brand : Option String
  exp_month : Option Int
  exp_year : Option Int
  fingerprint : Option String
  funding : Option String
  country : Option String
  last4 : Option String
  tokenization_method : Option String
deriving DecidableEq, Repr

structure LinkDetails where
  funding : Option String
deriving DecidableEq, Repr

structure PaymentMethodDetails where
  type : Option String
  link : Option LinkDetails
  card : Option Card
deriving DecidableEq, Repr

structure BalanceTransaction where
  fee : Option Int
  tax : Option Int
deriving DecidableEq, Repr

structure Refund where
  created : Option Int
deriving DecidableEq, Repr

structure Refunds where
  data : List Refund
deriving DecidableEq, Repr

structure Address where
  line1 : Option String
  line2 : Option String
  city : Option String
  state : Option String
  country : Option String
  postal_code : Option String
deriving DecidableEq, Repr

structure Shipping where
  name : Option String
  address : Option Address
deriving DecidableEq, Repr

structure Dispute where
  amount : Option Int
  reason : Option String
  status : Option String
deriving DecidableEq, Repr

structure Outcome where
  seller_message : Option String
deriving DecidableEq, Repr

structure BillingDetails where
  phone : Option String
deriving DecidableEq, Repr

/-- The metadata keys the controller reads.  `productNames` stands for the
bracket access `metadata?.["Product Names"]`. -/
structure Metadata where
  custom_field_1_key : Option String
  custom_field_1_value : Option String
  custom_field_2_key : Option String
  custom_field_2_value : Option String
  custom_field_3_key : Option String
  custom_field_3_value : Option String
  line_item_summary : Option String
  promotional_consent : Option String
  tos_consent : Option String
  utm_campaign : Option String
  utm_content : Option String
  utm_medium : Option String
  utm_source : Option String
  utm_term : Option String
  productNames : Option String
deriving DecidableEq, Repr

/-- A Stripe charge record, restricted to the properties the controller
dereferences.  `customer` is the unexpanded customer identifier string, as
returned by the Stripe list API. -/
structure Charge where
  id : Option String
  created : Option Int
  amount : Option Int
  amount_refunded : Option Int
  currency : Option String
  captured : Option Bool
  amount_captured : Option Int
  failure_message : Option String
  description : Option String
  balance_transaction : Option BalanceTransaction
  payment_method_details : Option PaymentMethodDetails
  payment_intent : Option String
  refunded : Option Bool
  refunds : Option Refunds
  statement_descriptor : Option String
  status : Option String
  outcome : Option Outcome
  customer : Option String
  receipt_email : Option String
  billing_details : Option BillingDetails
  shipping : Option Shipping
  dispute : Option Dispute
  invoice : Option String
  invoice_number : Option String
  checkout_session : Option String
  metadata : Option Metadata
  client_reference_id : Option String
  payment_link : Option String
  terminal_location : Option String
  terminal_reader : Option String
  application_fee_amount : Option Int
  application : Option String
  destination : Option String
  transfer : Option String
  transfer_group : Option String
deriving DecidableEq, Repr

/-! ## Date rendering

`new Date(ms).toISOString()`.  `toISOString` throws a RangeError when the
date is invalid (`NaN` milliseconds, or more than 8.64e15 milliseconds away
from the epoch).  The rendering itself is the standard civil-calendar
conversion (days since 1970-01-01 to year/month/day). -/

/-- Zero-padded decimal rendering with at least two digits. -/
def pad2 (n : Nat) : String :=
  if n < 10 then "0" ++ toString n else toString n

/-- Zero-padded decimal rendering with at least three digits. -/
def pad3 (n : Nat) : String :=
  if n < 10 then "00" ++ toString n
  else if n < 100 then "0" ++ toString n
  else toString n

/-- Zero-padded decimal rendering with at least four digits. -/
def pad4 (n : Nat) : String :=
  if n < 10 then "000" ++ toString n
  else if n < 100 then "00" ++ toString n
  else if n < 1000 then "0" ++ toString n
  else toString n

/-- Zero-padded decimal rendering with at least six digits. -/
def pad6 (n : Nat) : String :=
  if n < 100000 then "0" ++ pad4 n ++ "" else toString n

/-- Civil date (year, month, day) from a count of days since 1970-01-01
(proleptic Gregorian calendar). -/
def civilFromDays (z0 : Int) : Int × Nat × Nat :=
  let z := z0 + 719468
  let era := z.fdiv 146097
  let doe := (z - era * 146097).toNat
  let yoe := (doe - doe / 1460 + doe / 36524 - doe / 146096) / 400
  let y := (yoe : Int) + era * 400
  let doy := doe - (365 * yoe + yoe / 4 - yoe / 100)
  let mp := (5 * doy + 2) / 153
  let d := doy - (153 * mp + 2) / 5 + 1
  let m := if mp < 10 then mp + 3 else mp - 9
  (if m ≤ 2 then y + 1 else y, m, d)

/-- The ISO-8601 instant string produced by `Date.prototype.toISOString`
for a valid millisecond timestamp. -/
def toISOStringFromMs (ms : Int) : String :=
  let days := ms.fdiv 86400000
  let msOfDay := (ms - days * 86400000).toNat
  let ymd := civilFromDays days
  let y := ymd.1
  let m := ymd.2.1
  let d := ymd.2.2
  let hh := msOfDay / 3600000
  let mi := msOfDay % 3600000 / 60000
  let ss := msOfDay % 60000 / 1000
  let mmm := msOfDay % 1000
  let ystr :=
    if y < 0 then "-" ++ pad6 (-y).toNat
    else if y > 9999 then "+" ++ pad6 y.toNat
    else pad4 y.toNat
  ystr ++ "-" ++ pad2 m ++ "-" ++ pad2 d ++ "T" ++ pad2 hh ++ ":" ++ pad2 mi
    ++ ":" ++ pad2 ss ++ "." ++ pad3 mmm ++ "Z"

/-- A JS exception raised by the controller code. -/
inductive JsError where
  /-- TypeError: property access or method call on `undefined`. -/
  | typeError
  /-- RangeError "Invalid time value" from `toISOString` on an invalid date. -/
  | invalidTimeValue
deriving DecidableEq, Repr

/-- Evaluation of `new Date(t * 1000).toISOString()` for a charge timestamp `t` in epoch
seconds: throws a RangeError when the resulting date is invalid (further
than 8.64e15 ms from the epoch), otherwise renders the instant. -/
def dateFromSeconds (t : Int) : Except JsError String :=
  if (t * 1000).natAbs ≤ 8640000000000000 then
    .ok (toISOStringFromMs (t * 1000))
  else .error .invalidTimeValue

/-! ## The flat record

`mapTransactionData` builds, per charge, a JS object literal with a fixed
set of keys in a fixed order.  The object is modelled as a structure whose
fields appear in the literal's key order; `FlatRecord.toPairs` recovers the
ordered key/value list (the insertion order of the JS object, which becomes
the CSV column order). -/

structure FlatRecord where
  id : JVal
  createdDate : JVal
  amount : JVal
  amountRefunded : JVal
  currency : JVal
  captured : JVal
  convertedAmount : JVal
  convertedAmountRefunded : JVal
  convertedCurrency : JVal
  declineReason : JVal
  description : JVal
  fee : JVal
  isLink : JVal
  linkFunding : JVal
  mode : JVal
  paymentIntentId : JVal
  paymentSourceType : JVal
  refundedDate : JVal
  statementDescriptor : JVal
  status : JVal
  sellerMessage : JVal
  taxesOnFee : JVal
  cardId : JVal
  cardName : JVal
  cardAddressLine1 : JVal
  cardAddressLine2 : JVal
  cardAddressCity : JVal
  cardAddressState : JVal
  cardAddressCountry : JVal
  cardAddressZip : JVal
  cardAvsLine1Status : JVal
  cardAvsZipStatus : JVal
  cardBrand : JVal
  cardCvcStatus : JVal
  cardExpMonth : JVal
  cardExpYear : JVal
  cardFingerprint : JVal
  cardFunding : JVal
  cardIssueCountry : JVal
  cardLast4 : JVal
  cardTokenizationMethod : JVal
  customerId : JVal
  customerDescription : JVal
  customerEmail : JVal
  customerPhone : JVal
  shippingName : JVal
  shippingAddressLine1 : JVal
  shippingAddressLine2 : JVal
  shippingAddressCity : JVal
  shippingAddressState : JVal
  shippingAddressCountry : JVal
  shippingAddressPostalCode : JVal
  disputedAmount : JVal
  disputeReason : JVal
  disputeStatus : JVal
  invoiceId : JVal
  invoiceNumber : JVal
  checkoutSessionId : JVal
  checkoutCustomField1Key : JVal
  checkoutCustomField1Value : JVal
  checkoutCustomField2Key : JVal
  checkoutCustomField2Value : JVal
  checkoutCustomField3Key : JVal
  checkoutCustomField3Value : JVal
  checkoutLineItemSummary : JVal
  checkoutPromotionalConsent : JVal
  checkoutTermsOfServiceConsent : JVal
  clientReferenceId : JVal
  paymentLinkId : JVal
  utmCampaign : JVal
  utmContent : JVal
  utmMedium : JVal
  utmSource : JVal
  utmTerm : JVal
  terminalLocationId : JVal
  terminalReaderId : JVal
  applicationFee : JVal
  applicationId : JVal
  destination : JVal
  transfer : JVal
  transferGroup : JVal
  fund : JVal

/-- The ordered key/value pairs of the flat record, with the exact JS
object-literal keys in their insertion order. -/
def FlatRecord.toPairs (r : FlatRecord) : List (String × JVal) :=
  [("ID", r.id),
   ("Created date (UTC)", r.createdDate),
   ("Amount", r.amount),
   ("Amount Refunded", r.amountRefunded),
   ("Currency", r.currency),
   ("Captured", r.captured),
   ("Converted Amount", r.convertedAmount),
   ("Converted Amount Refunded", r.convertedAmountRefunded),
   ("Converted Currency", r.convertedCurrency),
   ("Decline Reason", r.declineReason),
   ("Description", r.description),
   ("Fee", r.fee),
   ("Is Link", r.isLink),
   ("Link Funding", r.linkFunding),
   ("Mode", r.mode),
   ("PaymentIntent ID", r.paymentIntentId),
   ("Payment Source Type", r.paymentSourceType),
   ("Refunded date (UTC)", r.refundedDate),
   ("Statement Descriptor", r.statementDescriptor),
   ("Status", r.status),
   ("Seller Message", r.sellerMessage),
   ("Taxes On Fee", r.taxesOnFee),
   ("Card ID", r.cardId),
   ("Card Name", r.cardName),
   ("Card Address Line1", r.cardAddressLine1),
   ("Card Address Line2", r.cardAddressLine2),
   ("Card Address City", r.cardAddressCity),
   ("Card Address State", r.cardAddressState),
   ("Card Address Country", r.cardAddressCountry),
   ("Card Address Zip", r.cardAddressZip),
   ("Card AVS Line1 Status", r.cardAvsLine1Status),
   ("Card AVS Zip Status", r.cardAvsZipStatus),
   ("Card Brand", r.cardBrand),
   ("Card CVC Status", r.cardCvcStatus),
   ("Card Exp Month", r.cardExpMonth),
   ("Card Exp Year", r.cardExpYear),
   ("Card Fingerprint", r.cardFingerprint),
   ("Card Funding", r.cardFunding),
   ("Card Issue Country", r.cardIssueCountry),
   ("Card Last4", r.cardLast4),
   ("Card Tokenization Method", r.cardTokenizationMethod),
   ("Customer ID", r.customerId),
   ("Customer Description", r.customerDescription),
   ("Customer Email", r.customerEmail),
   ("Customer Phone", r.customerPhone),
   ("Shipping Name", r.shippingName),
   ("Shipping Address Line1", r.shippingAddressLine1),
   ("Shipping Address Line2", r.shippingAddressLine2),
   ("Shipping Address City", r.shippingAddressCity),
   ("Shipping Address State", r.shippingAddressState),
   ("Shipping Address Country", r.shippingAddressCountry),
   ("Shipping Address Postal Code", r.shippingAddressPostalCode),
   ("Disputed Amount", r.disputedAmount),
   ("Dispute Reason", r.disputeReason),
   ("Dispute Status", r.disputeStatus),
   ("Invoice ID", r.invoiceId),
   ("Invoice Number", r.invoiceNumber),
   ("Checkout Session ID", r.checkoutSessionId),
   ("Checkout Custom Field 1 Key", r.checkoutCustomField1Key),
   ("Checkout Custom Field 1 Value", r.checkoutCustomField1Value),
   ("Checkout Custom Field 2 Key", r.checkoutCustomField2Key),
   ("Checkout Custom Field 2 Value", r.checkoutCustomField2Value),
   ("Checkout Custom Field 3 Key", r.checkoutCustomField3Key),
   ("Checkout Custom Field 3 Value", r.checkoutCustomField3Value),
   ("Checkout Line Item Summary", r.checkoutLineItemSummary),
   ("Checkout Promotional Consent", r.checkoutPromotionalConsent),
   ("Checkout Terms of Service Consent", r.checkoutTermsOfServiceConsent),
   ("Client Reference ID", r.clientReferenceId),
   ("Payment Link ID", r.paymentLinkId),
   ("UTM Campaign", r.utmCampaign),
   ("UTM Content", r.utmContent),
   ("UTM Medium", r.utmMedium),
   ("UTM Source", r.utmSource),
   ("UTM Term", r.utmTerm),
   ("Terminal Location ID", r.terminalLocationId),
   ("Terminal Reader ID", r.terminalReaderId),
   ("Application Fee", r.applicationFee),
   ("Application ID", r.applicationId),
   ("Destination", r.destination),
   ("Transfer", r.transfer),
   ("Transfer Group", r.transferGroup),
   ("Fund", r.fund)]

/-! ## The flattening map (`mapTransactionData`)

The object literal of `mapTransactionData` evaluates its values in key
order; the first value that throws aborts the whole map.  Only three
expressions can throw: the created date (`toISOString` on an invalid
date), the currency (`toUpperCase` on `undefined`), and the refunded date
(dereferencing `charge.refunds.data[0].created` under the `refunded`
guard).  They are evaluated below in that (source) order; every other
value is total. -/

/-- Evaluation of `new Date(charge.created * 1000).toISOString()`: throws a RangeError
when `created` is absent (`undefined * 1000` is `NaN`). -/
def createdField (c : Charge) : Except JsError String :=
  match c.created with
  | none => .error .invalidTimeValue
  | some t => dateFromSeconds t

/-- Evaluation of `charge.currency.toUpperCase()`: throws a TypeError when `currency`
is absent. -/
def currencyField (c : Charge) : Except JsError String :=
  match c.currency with
  | none => .error .typeError
  | some s => .ok s.toUpper

/-- Evaluation of the source expression for the refunded date:
`charge.refunded ? new Date(charge.refunds.data[0].created * 1000).toISOString() : ""`.
under a truthy `refunded` flag, dereferences the first refund entry without
any guard — a TypeError when `refunds` is absent or its `data` array is
empty, a RangeError when that entry's `created` is absent. -/
def refundedDateField (c : Charge) : Except JsError JVal :=
  if c.refunded = some true then
    match c.refunds with
    | none => .error .typeError
    | some r =>
      match r.data.head? with
      | none => .error .typeError
      | some first =>
        match first.created with
        | none => .error .invalidTimeValue
        | some t => (dateFromSeconds t).map JVal.str
  else .ok (.str "")

/-- Field `ID` of the flattened record. -/
def idVal (c : Charge) : JVal :=
  ostr c.id

/-- Field `Amount` of the flattened record. -/
def amountVal (c : Charge) : JVal :=
  jdiv100 c.amount

/-- Field `Amount Refunded` of the flattened record. -/
def amountRefundedVal (c : Charge) : JVal :=
  jdiv100 c.amount_refunded

/-- Field `Captured` of the flattened record. -/
def capturedVal (c : Charge) : JVal :=
  obool c.captured

/-- Field `Converted Amount` of the flattened record. -/
def convertedAmountVal (c : Charge) : JVal :=
  jdiv100 c.amount_captured

/-- Field `Converted Amount Refunded` of the flattened record. -/
def convertedAmountRefundedVal (c : Charge) : JVal :=
  jdiv100 c.amount_refunded

/-- Field `Decline Reason` of the flattened record. -/
def declineReasonVal (c : Charge) : JVal :=
  jor (ostr c.failure_message) (.str "")

/-- Field `Description` of the flattened record. -/
def descriptionVal (c : Charge) : JVal :=
  jor (ostr c.description) (.str "")

/-- Field `Fee` of the flattened record. -/
def feeVal (c : Charge) : JVal :=
  match c.balance_transaction with
      | some bt => jdiv100 bt.fee
      | none => .str ""

/-- Field `Is Link` of the flattened record. -/
def isLinkVal (c : Charge) : JVal :=
  JVal.bool (decide ((c.payment_method_details.bind fun pm => pm.type) = some "link"))

/-- Field `Link Funding` of the flattened record. -/
def linkFundingVal (c : Charge) : JVal :=
  jor (ostr ((c.payment_method_details.bind fun pm => pm.link).bind fun l => l.funding)) (.str "")

/-- Field `Mode` of the flattened record. -/
def modeVal (c : Charge) : JVal :=
  JVal.str (if truthyOptStr c.payment_intent then "payment_intent" else "charge")

/-- Field `PaymentIntent ID` of the flattened record. -/
def paymentIntentIdVal (c : Charge) : JVal :=
  jor (ostr c.payment_intent) (.str "")

/-- Field `Payment Source Type` of the flattened record. -/
def paymentSourceTypeVal (c : Charge) : JVal :=
  jor (ostr (c.payment_method_details.bind fun pm => pm.type)) (.str "")

/-- Field `Statement Descriptor` of the flattened record. -/
def statementDescriptorVal (c : Charge) : JVal :=
  jor (ostr c.statement_descriptor) (.str "")

/-- Field `Status` of the flattened record. -/
def statusVal (c : Charge) : JVal :=
  ostr c.status

/-- Field `Seller Message` of the flattened record. -/
def sellerMessageVal (c : Charge) : JVal :=
  jor (ostr (c.outcome.bind fun o => o.seller_message)) (.str "")

/-- Field `Taxes On Fee` of the flattened record. -/
def taxesOnFeeVal (c : Charge) : JVal :=
  match c.balance_transaction with
      | some bt => jor (onum bt.tax) (.str "")
      | none => .str ""

/-- Field `Card ID` of the flattened record. -/
def cardIdVal (c : Charge) : JVal :=
  jor (ostr ((c.payment_method_details.bind fun pm => pm.card).bind fun k => k.id)) (.str "")

/-- Field `Card Name` of the flattened record. -/
def cardNameVal (c : Charge) : JVal :=
  jor (ostr ((c.payment_method_details.bind fun pm => pm.card).bind fun k => k.name)) (.str "")

/-- Field `Card Address Line1` of the flattened record. -/
def cardAddressLine1Val (c : Charge) : JVal :=
  jor (ostr ((c.payment_method_details.bind fun pm => pm.card).bind fun k => k.address_line1)) (.str "")

/-- Field `Card Address Line2` of the flattened record. -/
def cardAddressLine2Val (c : Charge) : JVal :=
  jor (ostr ((c.payment_method_details.bind fun pm => pm.card).bind fun k => k.address_line2)) (.str "")

/-- Field `Card Address City` of the flattened record. -/
def cardAddressCityVal (c : Charge) : JVal :=
  jor (ostr ((c.payment_method_details.bind fun pm => pm.card).bind fun k => k.address_city)) (.str "")

/-- Field `Card Address State` of the flattened record. -/
def cardAddressStateVal (c : Charge) : JVal :=
  jor (ostr ((c.payment_method_details.bind fun pm => pm.card).bind fun k => k.address_state)) (.str "")

/-- Field `Card Address Country` of the flattened record. -/
def cardAddressCountryVal (c : Charge) : JVal :=
  jor (ostr ((c.payment_method_details.bind fun pm => pm.card).bind fun k => k.address_country)) (.str "")

/-- Field `Card Address Zip` of the flattened record. -/
def cardAddressZipVal (c : Charge) : JVal :=
  jor (ostr ((c.payment_method_details.bind fun pm => pm.card).bind fun k => k.address_zip)) (.str "")

/-- Field `Card AVS Line1 Status` of the flattened record. -/
def cardAvsLine1StatusVal (c : Charge) : JVal :=
  jor (ostr (((c.payment_method_details.bind fun pm => pm.card).bind fun k => k.checks).bind fun ck => ck.address_line1_check)) (.str "")

/-- Field `Card AVS Zip Status` of the flattened record. -/
def cardAvsZipStatusVal (c : Charge) : JVal :=
  jor (ostr (((c.payment_method_details.bind fun pm => pm.card).bind fun k => k.checks).bind fun ck => ck.address_zip_check)) (.str "")

/-- Field `Card Brand` of the flattened record. -/
def cardBrandVal (c : Charge) : JVal :=
  jor (ostr ((c.payment_method_details.bind fun pm => pm.card).bind fun k => k.brand)) (.str "")

/-- Field `Card CVC Status` of the flattened record. -/
def cardCvcStatusVal (c : Charge) : JVal :=
  jor (ostr (((c.payment_method_details.bind fun pm => pm.card).bind fun k => k.checks).bind fun ck => ck.cvc_check)) (.str "")

/-- Field `Card Exp Month` of the flattened record. -/
def cardExpMonthVal (c : Charge) : JVal :=
  jor (onum ((c.payment_method_details.bind fun pm => pm.card).bind fun k => k.exp_month)) (.str "")

/-- Field `Card Exp Year` of the flattened record. -/
def cardExpYearVal (c : Charge) : JVal :=
  jor (onum ((c.payment_method_details.bind fun pm => pm.card).bind fun k => k.exp_year)) (.str "")

/-- Field `Card Fingerprint` of the flattened record. -/
def cardFingerprintVal (c : Charge) : JVal :=
  jor (ostr ((c.payment_method_details.bind fun pm => pm.card).bind fun k => k.fingerprint)) (.str "")

/-- Field `Card Funding` of the flattened record. -/
def cardFundingVal (c : Charge) : JVal :=
  jor (ostr ((c.payment_method_details.bind fun pm => pm.card).bind fun k => k.funding)) (.str "")

/-- Field `Card Issue Country` of the flattened record. -/
def cardIssueCountryVal (c : Charge) : JVal :=
  jor (ostr ((c.payment_method_details.bind fun pm => pm.card).bind fun k => k.country)) (.str "")

/-- Field `Card Last4` of the flattened record. -/
def cardLast4Val (c : Charge) : JVal :=
  jor (ostr ((c.payment_method_details.bind fun pm => pm.card).bind fun k => k.last4)) (.str "")

/-- Field `Card Tokenization Method` of the flattened record. -/
def cardTokenizationMethodVal (c : Charge) : JVal :=
  jor (ostr ((c.payment_method_details.bind fun pm => pm.card).bind fun k => k.tokenization_method)) (.str "")

/-- Field `Customer ID` of the flattened record. -/
def customerIdVal (c : Charge) : JVal :=
  jor (ostr c.customer) (.str "")

/-- Field `Customer Description` of the flattened record. -/
def customerDescriptionVal (c : Charge) : JVal :=
  if truthyOptStr c.customer then JVal.undef else .str ""

/-- Field `Customer Email` of the flattened record. -/
def customerEmailVal (c : Charge) : JVal :=
  jor (ostr c.receipt_email) (.str "")

/-- Field `Customer Phone` of the flattened record. -/
def customerPhoneVal (c : Charge) : JVal :=
  jor (ostr (c.billing_details.bind fun b => b.phone)) (.str "")

/-- Field `Shipping Name` of the flattened record. -/
def shippingNameVal (c : Charge) : JVal :=
  jor (ostr (c.shipping.bind fun sh => sh.name)) (.str "")

/-- Field `Shipping Address Line1` of the flattened record. -/
def shippingAddressLine1Val (c : Charge) : JVal :=
  jor (ostr ((c.shipping.bind fun sh => sh.address).bind fun a => a.line1)) (.str "")

/-- Field `Shipping Address Line2` of the flattened record. -/
def shippingAddressLine2Val (c : Charge) : JVal :=
  jor (ostr ((c.shipping.bind fun sh => sh.address).bind fun a => a.line2)) (.str "")

/-- Field `Shipping Address City` of the flattened record. -/
def shippingAddressCityVal (c : Charge) : JVal :=
  jor (ostr ((c.shipping.bind fun sh => sh.address).bind fun a => a.city)) (.str "")

/-- Field `Shipping Address State` of the flattened record. -/
def shippingAddressStateVal (c : Charge) : JVal :=
  jor (ostr ((c.shipping.bind fun sh => sh.address).bind fun a => a.state)) (.str "")

/-- Field `Shipping Address Country` of the flattened record. -/
def shippingAddressCountryVal (c : Charge) : JVal :=
  jor (ostr ((c.shipping.bind fun sh => sh.address).bind fun a => a.country)) (.str "")

/-- Field `Shipping Address Postal Code` of the flattened record. -/
def shippingAddressPostalCodeVal (c : Charge) : JVal :=
  jor (ostr ((c.shipping.bind fun sh => sh.address).bind fun a => a.postal_code)) (.str "")

/-- Field `Disputed Amount` of the flattened record. -/
def disputedAmountVal (c : Charge) : JVal :=
  match c.dispute with
      | some d => jdiv100 d.amount
      | none => .str ""

/-- Field `Dispute Reason` of the flattened record. -/
def disputeReasonVal (c : Charge) : JVal :=
  match c.dispute with
      | some d => ostr d.reason
      | none => .str ""

/-- Field `Dispute Status` of the flattened record. -/
def disputeStatusVal (c : Charge) : JVal :=
  match c.dispute with
      | some d => ostr d.status
      | none => .str ""

/-- Field `Invoice ID` of the flattened record. -/
def invoiceIdVal (c : Charge) : JVal :=
  jor (ostr c.invoice) (.str "")

/-- Field `Invoice Number` of the flattened record. -/
def invoiceNumberVal (c : Charge) : JVal :=
  if truthyOptStr c.invoice then ostr c.invoice_number else .str ""

/-- Field `Checkout Session ID` of the flattened record. -/
def checkoutSessionIdVal (c : Charge) : JVal :=
  jor (ostr c.checkout_session) (.str "")

/-- Field `Checkout Custom Field 1 Key` of the flattened record. -/
def checkoutCustomField1KeyVal (c : Charge) : JVal :=
  jor (ostr (c.metadata.bind fun md => md.custom_field_1_key)) (.str "")

/-- Field `Checkout Custom Field 1 Value` of the flattened record. -/
def checkoutCustomField1ValueVal (c : Charge) : JVal :=
  jor (ostr (c.metadata.bind fun md => md.custom_field_1_value)) (.str "")

/-- Field `Checkout Custom Field 2 Key` of the flattened record. -/
def checkoutCustomField2KeyVal (c : Charge) : JVal :=
  jor (ostr (c.metadata.bind fun md => md.custom_field_2_key)) (.str "")

/-- Field `Checkout Custom Field 2 Value` of the flattened record. -/
def checkoutCustomField2ValueVal (c : Charge) : JVal :=
  jor (ostr (c.metadata.bind fun md => md.custom_field_2_value)) (.str "")

/-- Field `Checkout Custom Field 3 Key` of the flattened record. -/
def checkoutCustomField3KeyVal (c : Charge) : JVal :=
  jor (ostr (c.metadata.bind fun md => md.custom_field_3_key)) (.str "")

/-- Field `Checkout Custom Field 3 Value` of the flattened record. -/
def checkoutCustomField3ValueVal (c : Charge) : JVal :=
  jor (ostr (c.metadata.bind fun md => md.custom_field_3_value)) (.str "")

/-- Field `Checkout Line Item Summary` of the flattened record. -/
def checkoutLineItemSummaryVal (c : Charge) : JVal :=
  jor (ostr (c.metadata.bind fun md => md.line_item_summary)) (.str "")

/-- Field `Checkout Promotional Consent` of the flattened record. -/
def checkoutPromotionalConsentVal (c : Charge) : JVal :=
  jor (ostr (c.metadata.bind fun md => md.promotional_consent)) (.str "")

/-- Field `Checkout Terms of Service Consent` of the flattened record. -/
def checkoutTermsOfServiceConsentVal (c : Charge) : JVal :=
  jor (ostr (c.metadata.bind fun md => md.tos_consent)) (.str "")

/-- Field `Client Reference ID` of the flattened record. -/
def clientReferenceIdVal (c : Charge) : JVal :=
  jor (ostr c.client_reference_id) (.str "")

/-- Field `Payment Link ID` of the flattened record. -/
def paymentLinkIdVal (c : Charge) : JVal :=
  jor (ostr c.payment_link) (.str "")

/-- Field `UTM Campaign` of the flattened record. -/
def utmCampaignVal (c : Charge) : JVal :=
  jor (ostr (c.metadata.bind fun md => md.utm_campaign)) (.str "")

/-- Field `UTM Content` of the flattened record. -/
def utmContentVal (c : Charge) : JVal :=
  jor (ostr (c.metadata.bind fun md => md.utm_content)) (.str "")

/-- Field `UTM Medium` of the flattened record. -/
def utmMediumVal (c : Charge) : JVal :=
  jor (ostr (c.metadata.bind fun md => md.utm_medium)) (.str "")

/-- Field `UTM Source` of the flattened record. -/
def utmSourceVal (c : Charge) : JVal :=
  jor (ostr (c.metadata.bind fun md => md.utm_source)) (.str "")

/-- Field `UTM Term` of the flattened record. -/
def utmTermVal (c : Charge) : JVal :=
  jor (ostr (c.metadata.bind fun md => md.utm_term)) (.str "")

/-- Field `Terminal Location ID` of the flattened record. -/
def terminalLocationIdVal (c : Charge) : JVal :=
  jor (ostr c.terminal_location) (.str "")

/-- Field `Terminal Reader ID` of the flattened record. -/
def terminalReaderIdVal (c : Charge) : JVal :=
  jor (ostr c.terminal_reader) (.str "")

/-- Field `Application Fee` of the flattened record. -/
def applicationFeeVal (c : Charge) : JVal :=
  jor (jdiv100 c.application_fee_amount) (.str "")

/-- Field `Application ID` of the flattened record. -/
def applicationIdVal (c : Charge) : JVal :=
  jor (ostr c.application) (.str "")

/-- Field `Destination` of the flattened record. -/
def destinationVal (c : Charge) : JVal :=
  jor (ostr c.destination) (.str "")

/-- Field `Transfer` of the flattened record. -/
def transferVal (c : Charge) : JVal :=
  jor (ostr c.transfer) (.str "")

/-- Field `Transfer Group` of the flattened record. -/
def transferGroupVal (c : Charge) : JVal :=
  jor (ostr c.transfer_group) (.str "")

/-- Field `Fund` of the flattened record. -/
def fundVal (c : Charge) : JVal :=
  jor (ostr (c.metadata.bind fun md => md.productNames)) (.str "")

/-- The object literal of `mapTransactionData`, given the already-evaluated
created date, upper-cased currency and refunded date; fields in source
(insertion) order. -/
def flatFields (c : Charge) (createdIso curr : String) (rdate : JVal) : FlatRecord :=
  FlatRecord.mk
    (idVal c)
    (JVal.str createdIso)
    (amountVal c)
    (amountRefundedVal c)
    (JVal.str curr)
    (capturedVal c)
    (convertedAmountVal c)
    (convertedAmountRefundedVal c)
    (JVal.str curr)
    (declineReasonVal c)
    (descriptionVal c)
    (feeVal c)
    (isLinkVal c)
    (linkFundingVal c)
    (modeVal c)
    (paymentIntentIdVal c)
    (paymentSourceTypeVal c)
    rdate
    (statementDescriptorVal c)
    (statusVal c)
    (sellerMessageVal c)
    (taxesOnFeeVal c)
    (cardIdVal c)
    (cardNameVal c)
    (cardAddressLine1Val c)
    (cardAddressLine2Val c)
    (cardAddressCityVal c)
    (cardAddressStateVal c)
    (cardAddressCountryVal c)
    (cardAddressZipVal c)
    (cardAvsLine1StatusVal c)
    (cardAvsZipStatusVal c)
    (cardBrandVal c)
    (cardCvcStatusVal c)
    (cardExpMonthVal c)
    (cardExpYearVal c)
    (cardFingerprintVal c)
    (cardFundingVal c)
    (cardIssueCountryVal c)
    (cardLast4Val c)
    (cardTokenizationMethodVal c)
    (customerIdVal c)
    (customerDescriptionVal c)
    (customerEmailVal c)
    (customerPhoneVal c)
    (shippingNameVal c)
    (shippingAddressLine1Val c)
    (shippingAddressLine2Val c)
    (shippingAddressCityVal c)
    (shippingAddressStateVal c)
    (shippingAddressCountryVal c)
    (shippingAddressPostalCodeVal c)
    (disputedAmountVal c)
    (disputeReasonVal c)
    (disputeStatusVal c)
    (invoiceIdVal c)
    (invoiceNumberVal c)
    (checkoutSessionIdVal c)
    (checkoutCustomField1KeyVal c)
    (checkoutCustomField1ValueVal c)
    (checkoutCustomField2KeyVal c)
    (checkoutCustomField2ValueVal c)
    (checkoutCustomField3KeyVal c)
    (checkoutCustomField3ValueVal c)
    (checkoutLineItemSummaryVal c)
    (checkoutPromotionalConsentVal c)
    (checkoutTermsOfServiceConsentVal c)
    (clientReferenceIdVal c)
    (paymentLinkIdVal c)
    (utmCampaignVal c)
    (utmContentVal c)
    (utmMediumVal c)
    (utmSourceVal c)
    (utmTermVal c)
    (terminalLocationIdVal c)
    (terminalReaderIdVal c)
    (applicationFeeVal c)
    (applicationIdVal c)
    (destinationVal c)
    (transferVal c)
    (transferGroupVal c)
    (fundVal c)

/-- The per-charge mapping of `mapTransactionData` (the body of its
`charges.map` callback): evaluates the three possibly-throwing expressions
in source order, then assembles the flat record. -/
def mapChargeRecord (c : Charge) : Except JsError FlatRecord :=
  match createdField c with
  | .error e => .error e
  | .ok createdIso =>
    match currencyField c with
    | .error e => .error e
    | .ok curr =>
      match refundedDateField c with
      | .error e => .error e
      | .ok rdate => .ok (flatFields c createdIso curr rdate)

/-- Embedding of `mapTransactionData(charges)`: `charges.map(...)`, where the first
charge whose mapping throws aborts the whole map with that exception. -/
def mapTransactionData (charges : List Charge) : Except JsError (List FlatRecord) :=
  charges.mapM mapChargeRecord

/-! ## Pagination (`fetchTransactions`)

The external source is modelled by a script: the list of answers it gives
to the successive `charges.list` calls — each answer is a page
(`response.data` and `response.has_more`) or a rejection of the call.
The loop of `fetchTransactions` consumes the script one answer per
iteration. -/

/-- One response of `stripeInstance.charges.list`. -/
structure Page where
  data : List Charge
  has_more : Bool
deriving DecidableEq, Repr

/-- The parameter object passed to `stripeInstance.charges.list`. -/
structure ChargeListParams where
  gte : Int
  lte : Int
  limit : Nat
  status : String
  starting_after : Option String
deriving DecidableEq, Repr

/-- The params built by one iteration of the loop in `fetchTransactions`
(limit 10), with `starting_after` added only when the `startingAfter`
variable is truthy (a JS string.  The initial `null` and an empty-string
identifier are both falsy, so the key is then omitted). -/
def loopParams (sd ed : Int) (cursor : Option String) : ChargeListParams :=
  { gte := sd, lte := ed, limit := 10, status := "succeeded",
    starting_after := if truthyOptStr cursor then cursor else none }

/-- Outcome of running the `while (hasMore)` loop of `fetchTransactions`
against a finite script. -/
inductive FetchOutcome where
  /-- The loop exited normally with the accumulated `charges`. -/
  | ok (charges : List Charge)
  /-- A `charges.list` call rejected; the error propagates out of
  `fetchTransactions`. -/
  | thrown (e : String)
  /-- The loop requested another page but the script has no further
  answer: the modelled interaction does not determine the result. -/
  | outOfScript
deriving DecidableEq, Repr

/-- The `while (hasMore)` loop of `fetchTransactions`: one request per
iteration (its params are recorded in the first component), the body
appends `response.data` to the accumulator, then continues exactly when
`response.has_more` is true and the page is non-empty (an empty page
forces `hasMore = false`); on continuation the cursor becomes the `id` of
the last record of the page. -/
def chargesListLoop (sd ed : Int) (cursor : Option String) :
    List (Except String Page) → List ChargeListParams × FetchOutcome
  | [] => ([loopParams sd ed cursor], .outOfScript)
  | Except.error e :: _ => ([loopParams sd ed cursor], .thrown e)
  | Except.ok p :: rest =>
    if p.has_more && !p.data.isEmpty then
      let next := chargesListLoop sd ed (p.data.getLast?.bind fun ch => ch.id) rest
      (loopParams sd ed cursor :: next.1,
        match next.2 with
        | .ok cs => .ok (p.data ++ cs)
        | .thrown e => .thrown e
        | .outOfScript => .outOfScript)
    else
      ([loopParams sd ed cursor], .ok p.data)

/-- Embedding of `fetchTransactions(startDate, endDate)` (dates in epoch
seconds): runs the pagination loop from a null cursor and applies the
final defensive filter `charges.filter(c => c.status === "succeeded")`. -/
def fetchTransactions (sd ed : Int) (script : List (Except String Page)) :
    FetchOutcome :=
  match (chargesListLoop sd ed none script).2 with
  | .ok cs => .ok (cs.filter fun ch => ch.status == some "succeeded")
  | .thrown e => .thrown e
  | .outOfScript => .outOfScript

/-- The sequence of `charges.list` params issued by `fetchTransactions`,
in request order. -/
def fetchRequests (sd ed : Int) (script : List (Except String Page)) :
    List ChargeListParams :=
  (chargesListLoop sd ed none script).1

/-! ## CSV serialization and the HTTP handlers -/

/-- Quoting of one CSV field value. -/
def csvQuote (s : String) : String :=
  "\"" ++ s.replace "\"" "\"\"" ++ "\""

/-- Rendering of a flattened scalar as CSV text. -/
def JVal.render : JVal → String
  | .str s => s
  | .num q => toString q
  | .nan => "NaN"
  | .bool b => toString b
  | .undef => ""

/-- Modelled from the spec: `json2csv`'s `new Parser({ fields }).parse(rows)`
is an external library whose code is not part of this repository; per the
spec (§4.4) it renders a header of the field names followed by one line
per record with the values in field order, quoting fields. -/
def json2csvParse (fields : List String) (rows : List FlatRecord) : String :=
  String.intercalate "\n"
    ((String.intercalate "," (fields.map csvQuote)) ::
      rows.map fun r =>
        String.intercalate "," (r.toPairs.map fun kv => csvQuote kv.2.render))

/-- The CSV serialization step of `exportTransactionsToCSV`:
`Object.keys(mappedData[0])` throws a TypeError when `mappedData` is empty
(`mappedData[0]` is `undefined`); otherwise the header is the first
record's key list and the parser renders the document. -/
def exportCsvStep (mappedData : List FlatRecord) : Except JsError String :=
  match mappedData with
  | [] => .error .typeError
  | r :: _ => .ok (json2csvParse (r.toPairs.map fun kv => kv.1) mappedData)

/-- An error escaping the request handler (the export handler has no
try/catch, so such an error produces no HTTP response). -/
inductive RuntimeError where
  | stripe (msg : String)
  | js (e : JsError)
deriving DecidableEq, Repr

/-- What a request handler does with the response object: sends a response
with a status and a body, lets an error escape without any response, or —
a model artefact — needs more external answers than the script provides. -/
inductive HttpResult where
  | response (status : Nat) (body : String)
  | unhandled (e : RuntimeError)
  | outOfScript
deriving DecidableEq, Repr

/-- Query parameters of `GET /v1/api/transactions`.  The controller parses
`page` with `parseInt(page) || 1` into a local variable that is never used
afterwards, and `lastTransactionId` is only mentioned in a commented-out
line. -/
structure TransQuery where
  startDate : Option String
  endDate : Option String
  page : Option String
  lastTransactionId : Option String
deriving DecidableEq, Repr

/-- Query parameters of `GET /v1/api/exportTransactionsToCSV`. -/
structure DateQuery where
  startDate : Option String
  endDate : Option String
deriving DecidableEq, Repr

/-- The date-range validation performed identically at the top of both
handlers.  `parse` models `new Date(string).getTime()` (milliseconds;
`none` for an invalid date).  Checks, in source order: `!startDate`,
`!endDate` (JS falsiness, so absent or empty string), `isNaN` of either
parse, then `end < start`.  On failure, the 400 response that the handler
returns; on success the two millisecond timestamps. -/
def validateDates (parse : String → Option Int) (startDate endDate : Option String) :
    Except HttpResult (Int × Int) :=
  match startDate with
  | none => .error (.response 400 "startDate is required")
  | some s =>
    if s == "" then .error (.response 400 "startDate is required")
    else
      match endDate with
      | none => .error (.response 400 "endDate is required")
      | some e =>
        if e == "" then .error (.response 400 "endDate is required")
        else
          match parse s, parse e with
          | some st, some en =>
            if en < st then
              .error (.response 400 "endDate must be greater than or equal to startDate")
            else .ok (st, en)
          | _, _ => .error (.response 400 "Both dates must be valid.")

/-- The params built by the `transactions` handler for its single
`charges.list` call: limit 10000, no `starting_after` (the
`starting_after: lastTransactionId` line is commented out in the source),
dates converted to epoch seconds with `Math.floor(ms / 1000)`. -/
def singlePageParams (st en : Int) : ChargeListParams :=
  { gte := st.fdiv 1000, lte := en.fdiv 1000, limit := 10000,
    status := "succeeded", starting_after := none }

/-- The params the `transactions` handler sends to the external source for
a given query, when validation passes. -/
def transactionsParams (parse : String → Option Int) (q : TransQuery) :
    Option ChargeListParams :=
  match validateDates parse q.startDate q.endDate with
  | .error _ => none
  | .ok (st, en) => some (singlePageParams st en)

/-- Embedding of the `transactions` handler: validation, one
`charges.list` call (modelled by `call`), 200 with the serialized response
(modelled by `render`) on success.  The whole body is wrapped in
try/catch: a rejected call is answered with 500 and a generic message. -/
def transactions (parse : String → Option Int) (q : TransQuery)
    (render : Page → String) (call : ChargeListParams → Except String Page) :
    HttpResult :=
  match validateDates parse q.startDate q.endDate with
  | .error r => r
  | .ok (st, en) =>
    match call (singlePageParams st en) with
    | .error _ => .response 500 "An error occurred while fetching transactions"
    | .ok page => .response 200 (render page)

/-- Embedding of the `exportTransactionsToCSV` handler: validation, then
`fetchTransactions`, `mapTransactionData` and the CSV step, then
`res.send(csv)`.  There is no try/catch in this handler: a rejected fetch
or a thrown TypeError/RangeError escapes as `unhandled`, producing no
response. -/
def exportTransactionsToCSV (parse : String → Option Int) (q : DateQuery)
    (script : List (Except String Page)) : HttpResult :=
  match validateDates parse q.startDate q.endDate with
  | .error r => r
  | .ok (st, en) =>
    match fetchTransactions (st.fdiv 1000) (en.fdiv 1000) script with
    | .outOfScript => .outOfScript
    | .thrown e => .unhandled (.stripe e)
    | .ok charges =>
      match mapTransactionData charges with
      | .error e => .unhandled (.js e)
      | .ok mapped =>
        match exportCsvStep mapped with
        | .error e => .unhandled (.js e)
        | .ok csv => .response 200 csv

/-! ## Concrete fixtures -/

/-- A charge with every property absent. -/
def emptyCharge : Charge :=
  { id := none, created := none, amount := none, amount_refunded := none,
    currency := none, captured := none, amount_captured := none,
    failure_message := none, description := none, balance_transaction := none,
    payment_method_details := none, payment_intent := none, refunded := none,
    refunds := none, statement_descriptor := none, status := none,
    outcome := none, customer := none, receipt_email := none,
    billing_details := none, shipping := none, dispute := none,
    invoice := none, invoice_number := none, checkout_session := none,
    metadata := none, client_reference_id := none, payment_link := none,
    terminal_location := none, terminal_reader := none,
    application_fee_amount := none, application := none, destination := none,
    transfer := none, transfer_group := none }

/-- A minimal succeeded charge. -/
def chargeS : Charge :=
  { emptyCharge with
    id := some "ch_1",
    created := some 0,
    currency := some "usd",
    status := some "succeeded" }

/-- A minimal charge with the required scalars present but no status. -/
def chargeMin : Charge :=
  { emptyCharge with created := some 0, currency := some "usd" }

/-! ## C1 — the defensive final filter -/

/-- C1.  For every valid date range with start ≤ end and every script of
pages from the external source, whenever `fetchTransactions` returns a
charge list, every returned charge has status "succeeded" — the final
defensive filter guarantees this regardless of the statuses the source
returned. -/
theorem collectAll_only_succeeded (sd ed : Int) (_hrange : sd ≤ ed)
    (script : List (Except String Page)) (cs : List Charge)
    (h : fetchTransactions sd ed script = .ok cs) :
    ∀ ch ∈ cs, ch.status = some "succeeded" := by
  intro ch hch
  unfold fetchTransactions at h
  cases hl : (chargesListLoop sd ed none script).2 with
  | ok l =>
    rw [hl] at h
    simp only [FetchOutcome.ok.injEq] at h
    subst h
    have := List.of_mem_filter hch
    simpa using this
  | thrown e => rw [hl] at h; cases h
  | outOfScript => rw [hl] at h; cases h

/-- Witness for C1 at a concrete range and script. -/
theorem collectAll_only_succeeded_witness : chargeS.status = some "succeeded" :=
  collectAll_only_succeeded 0 0 (le_refl 0)
    [Except.ok { data := [chargeS], has_more := false }] [chargeS]
    (by decide) chargeS (by decide)

/-! ## C2 — an empty page terminates the loop -/

/-- One-step equation for the loop on a successful page. -/
theorem chargesListLoop_cons_ok (sd ed : Int) (cursor : Option String)
    (p : Page) (rest : List (Except String Page)) :
    chargesListLoop sd ed cursor (Except.ok p :: rest)
      = if (p.has_more && !p.data.isEmpty) = true then
          (loopParams sd ed cursor ::
              (chargesListLoop sd ed (p.data.getLast?.bind fun ch => ch.id) rest).1,
            match (chargesListLoop sd ed (p.data.getLast?.bind fun ch => ch.id) rest).2 with
            | .ok cs => .ok (p.data ++ cs)
            | .thrown e => .thrown e
            | .outOfScript => .outOfScript)
        else ([loopParams sd ed cursor], .ok p.data) := rfl

/-- Running the loop over any pages that let it continue, followed by an
empty page, stops at the empty page: the accumulated result is exactly the
preceding pages' data and one request is issued per consumed page —
whatever (`rest`) would come afterwards is never requested. -/
theorem chargesListLoop_empty_page (sd ed : Int) (p : Page)
    (rest : List (Except String Page)) (hempty : p.data = [])
    (pre : List Page) :
    ∀ cursor : Option String, (∀ q ∈ pre, q.has_more = true ∧ q.data ≠ []) →
      (chargesListLoop sd ed cursor (pre.map Except.ok ++ Except.ok p :: rest)).2
          = .ok (pre.map fun q => q.data).flatten
      ∧ (chargesListLoop sd ed cursor (pre.map Except.ok ++ Except.ok p :: rest)).1.length
          = pre.length + 1 := by
  induction pre with
  | nil =>
    intro cursor _
    constructor
    · simp [chargesListLoop_cons_ok, hempty]
    · simp [chargesListLoop_cons_ok, hempty]
  | cons q pre' ih =>
    intro cursor hpre
    have hq := hpre q (List.mem_cons_self q pre')
    have hcond : (q.has_more && !q.data.isEmpty) = true := by
      rw [hq.1]
      cases hd : q.data with
      | nil => exact absurd hd hq.2
      | cons a l => simp
    have ihr := ih (q.data.getLast?.bind fun ch => ch.id)
      (fun r hr => hpre r (List.mem_cons_of_mem q hr))
    rw [List.map_cons, List.cons_append, chargesListLoop_cons_ok, if_pos hcond]
    constructor
    · show (match (chargesListLoop sd ed (q.data.getLast?.bind fun ch => ch.id)
          (pre'.map Except.ok ++ Except.ok p :: rest)).2 with
        | FetchOutcome.ok cs => FetchOutcome.ok (q.data ++ cs)
        | FetchOutcome.thrown e => FetchOutcome.thrown e
        | FetchOutcome.outOfScript => FetchOutcome.outOfScript) = _
      rw [ihr.1]
      simp
    · show (loopParams sd ed cursor ::
          (chargesListLoop sd ed (q.data.getLast?.bind fun ch => ch.id)
            (pre'.map Except.ok ++ Except.ok p :: rest)).1).length = _
      rw [List.length_cons, ihr.2]
      simp [Nat.add_comm]

/-- C2.  If the external source answers with some prefix of pages that keep
the loop going and then a page with zero records — even one flagged
`hasMore = true` — then `fetchTransactions` terminates at that page: it
returns the records collected so far (filtered) and has issued exactly one
request per consumed page; the rest of the script is never requested. -/
theorem collectAll_stops_on_empty_page (sd ed : Int) (pre : List Page) (p : Page)
    (rest : List (Except String Page))
    (hpre : ∀ q ∈ pre, q.has_more = true ∧ q.data ≠ [])
    (hempty : p.data = []) (_hmore : p.has_more = true) :
    fetchTransactions sd ed (pre.map Except.ok ++ Except.ok p :: rest)
      = .ok ((pre.map fun q => q.data).flatten.filter
          fun ch => ch.status == some "succeeded")
    ∧ (chargesListLoop sd ed none (pre.map Except.ok ++ Except.ok p :: rest)).1.length
      = pre.length + 1 := by
  obtain ⟨h2, h1⟩ := chargesListLoop_empty_page sd ed p rest hempty pre none hpre
  refine ⟨?_, h1⟩
  unfold fetchTransactions
  rw [h2]

/-- A non-empty page that lets the loop continue. -/
def pageA : Page := { data := [chargeS], has_more := true }

/-- An empty page flagged `hasMore = true`. -/
def pageEmptyMore : Page := { data := [], has_more := true }

/-- A page placed after the empty page; it must never be requested. -/
def junkPage : Page := { data := [chargeMin], has_more := true }

/-- Witness for C2: one full page, then an empty `hasMore = true` page,
then a junk page — the loop stops after two requests and returns the first
page's record. -/
theorem collectAll_stops_on_empty_page_witness :
    fetchTransactions 0 0
        ([pageA].map Except.ok ++ Except.ok pageEmptyMore :: [Except.ok junkPage])
      = .ok [chargeS]
    ∧ (chargesListLoop 0 0 none
        ([pageA].map Except.ok ++ Except.ok pageEmptyMore :: [Except.ok junkPage])).1.length
      = 2 := by
  have h := collectAll_stops_on_empty_page 0 0 [pageA] pageEmptyMore
    [Except.ok junkPage] (by decide) rfl rfl
  exact ⟨by rw [h.1]; decide, h.2⟩

/-! ## C3 — full consumption sums the page sizes -/

/-- Running the loop over a script consisting exactly of non-empty pages
whose intermediate pages say `hasMore = true` and whose last page says
`hasMore = false` consumes every page and accumulates all their records in
order. -/
theorem chargesListLoop_all_pages (sd ed : Int) :
    ∀ (ps : List Page) (cursor : Option String), ps ≠ [] →
      (∀ q ∈ ps.dropLast, q.has_more = true) →
      (∀ q ∈ ps, q.data ≠ []) →
      (∀ h : ps ≠ [], (ps.getLast h).has_more = false) →
      (chargesListLoop sd ed cursor (ps.map Except.ok)).2
        = .ok (ps.map fun q => q.data).flatten := by
  intro ps
  induction ps with
  | nil => intro _ h0; exact absurd rfl h0
  | cons p tl ih =>
    intro cursor _ h1 h2 h3
    cases tl with
    | nil =>
      have hlast : p.has_more = false := h3 (by simp)
      simp [chargesListLoop_cons_ok, hlast]
    | cons q tl2 =>
      have hp : p.has_more = true := by
        apply h1
        rw [List.dropLast_cons₂]
        exact List.mem_cons_self p _
      have hcond : (p.has_more && !p.data.isEmpty) = true := by
        rw [hp]
        cases hd : p.data with
        | nil => exact absurd hd (h2 p (List.mem_cons_self p _))
        | cons a l => simp
      have ihr := ih (p.data.getLast?.bind fun ch => ch.id) (by simp)
        (fun r hr => by
          apply h1
          rw [List.dropLast_cons₂]
          exact List.mem_cons_of_mem p hr)
        (fun r hr => h2 r (List.mem_cons_of_mem p hr))
        (fun h => by
          have := h3 (by simp)
          rwa [List.getLast_cons h] at this)
      rw [List.map_cons, chargesListLoop_cons_ok, if_pos hcond]
      show (match (chargesListLoop sd ed (p.data.getLast?.bind fun ch => ch.id)
          ((q :: tl2).map Except.ok)).2 with
        | FetchOutcome.ok cs => FetchOutcome.ok (p.data ++ cs)
        | FetchOutcome.thrown e => FetchOutcome.thrown e
        | FetchOutcome.outOfScript => FetchOutcome.outOfScript) = _
      rw [ihr]
      simp

/-- C3.  For a script of non-empty all-succeeded pages that the loop
consumes entirely (intermediate pages `hasMore = true`, last page
`hasMore = false`), `fetchTransactions` terminates with a list whose
length is the sum of the page sizes. -/
theorem collectAll_full_range_length (sd ed : Int) (ps : List Page) (h0 : ps ≠ [])
    (h1 : ∀ q ∈ ps.dropLast, q.has_more = true)
    (h2 : ∀ q ∈ ps, q.data ≠ [])
    (h3 : (ps.getLast h0).has_more = false)
    (h4 : ∀ q ∈ ps, ∀ ch ∈ q.data, ch.status = some "succeeded") :
    ∃ cs, fetchTransactions sd ed (ps.map Except.ok) = .ok cs
      ∧ cs.length = (ps.map fun q => q.data.length).sum := by
  have hloop := chargesListLoop_all_pages sd ed ps none h0 h1 h2 (fun _ => h3)
  have hfil : (ps.map fun q => q.data).flatten.filter
      (fun ch => ch.status == some "succeeded") = (ps.map fun q => q.data).flatten := by
    rw [List.filter_eq_self]
    intro ch hch
    rw [List.mem_flatten] at hch
    obtain ⟨l, hl, hchl⟩ := hch
    rw [List.mem_map] at hl
    obtain ⟨q, hq, rfl⟩ := hl
    simpa using h4 q hq ch hchl
  refine ⟨(ps.map fun q => q.data).flatten, ?_, ?_⟩
  · unfold fetchTransactions
    rw [hloop]
    show FetchOutcome.ok ((ps.map fun q => q.data).flatten.filter
      fun ch => ch.status == some "succeeded") = _
    rw [hfil]
  · rw [List.length_flatten, List.map_map]
    rfl

/-- A full page of ten succeeded charges. -/
def page10 : Page := { data := List.replicate 10 chargeS, has_more := true }

/-- A final page of four succeeded charges, `hasMore = false`. -/
def page4 : Page := { data := List.replicate 4 chargeS, has_more := false }

/-- The 3-page source of the pagination scenario (sizes 10, 10, 4). -/
def ps3 : List Page := [page10, page10, page4]

/-- Witness for C3: the 10/10/4 scenario yields 24 records. -/
theorem collectAll_full_range_length_witness :
    (∃ cs, fetchTransactions 0 0 (ps3.map Except.ok) = .ok cs
      ∧ cs.length = (ps3.map fun q => q.data.length).sum)
    ∧ (ps3.map fun q => q.data.length).sum = 24 :=
  ⟨collectAll_full_range_length 0 0 ps3 (by decide) (by decide) (by decide)
    (by decide) (by decide), by decide⟩

/-! ## C9 — cursor advancement -/

/-- The first request of the loop always carries the current cursor. -/
theorem chargesListLoop_head (sd ed : Int) (cursor : Option String)
    (script : List (Except String Page)) :
    (chargesListLoop sd ed cursor script).1.head? = some (loopParams sd ed cursor) := by
  cases script with
  | nil => rfl
  | cons e rest =>
    cases e with
    | error msg => rfl
    | ok p =>
      rw [chargesListLoop_cons_ok]
      by_cases h : (p.has_more && !p.data.isEmpty) = true
      · rw [if_pos h]
        rfl
      · rw [if_neg h]
        rfl

/-- Relation between the requests after the first one and the pages that
preceded them: when every consumed page ends in a record with a truthy
(non-empty) identifier, each subsequent request resumes after exactly that
identifier. -/
theorem chargesListLoop_tail_zip (sd ed : Int)
    (script : List (Except String Page)) :
    ∀ cursor : Option String,
      (∀ e ∈ script, ∀ p : Page, e = Except.ok p →
        truthyOptStr (p.data.getLast?.bind fun ch => ch.id) = true) →
      ∀ pr ∈ ((chargesListLoop sd ed cursor script).1.tail.zip script),
        ∀ p : Page, pr.2 = Except.ok p →
          pr.1.starting_after = p.data.getLast?.bind fun ch => ch.id := by
  induction script with
  | nil =>
    intro cursor _ pr hpr
    simp [chargesListLoop] at hpr
  | cons e rest ih =>
    intro cursor hids pr hpr p hp
    cases e with
    | error msg =>
      simp [chargesListLoop] at hpr
    | ok pg =>
      rw [chargesListLoop_cons_ok] at hpr
      by_cases hcond : (pg.has_more && !pg.data.isEmpty) = true
      · rw [if_pos hcond] at hpr
        obtain ⟨t, ht⟩ : ∃ t,
            (chargesListLoop sd ed (pg.data.getLast?.bind fun ch => ch.id) rest).1
              = loopParams sd ed (pg.data.getLast?.bind fun ch => ch.id) :: t := by
          have hh := chargesListLoop_head sd ed
            (pg.data.getLast?.bind fun ch => ch.id) rest
          cases hl : (chargesListLoop sd ed
              (pg.data.getLast?.bind fun ch => ch.id) rest).1 with
          | nil => rw [hl] at hh; cases hh
          | cons a t =>
            rw [hl] at hh
            refine ⟨t, ?_⟩
            simp only [List.head?_cons, Option.some.injEq] at hh
            rw [hh]
        rw [List.tail_cons, ht, List.zip_cons_cons] at hpr
        rcases List.mem_cons.mp hpr with heq | htl
        · subst heq
          obtain rfl : pg = p := by simpa using hp
          have htr := hids (Except.ok pg) (List.mem_cons_self _ _) pg rfl
          simp [loopParams, htr]
        · have hzip : pr ∈ ((chargesListLoop sd ed
              (pg.data.getLast?.bind fun ch => ch.id) rest).1.tail.zip rest) := by
            rw [ht, List.tail_cons]
            exact htl
          exact ih (pg.data.getLast?.bind fun ch => ch.id)
            (fun e' he' => hids e' (List.mem_cons_of_mem _ he')) pr hzip p hp
      · rw [if_neg hcond] at hpr
        simp at hpr

/-- C9 (amended).  The loop's first request carries no `starting_after`;
and — provided every page's last record has a truthy (present, non-empty)
identifier — every subsequent request's `starting_after` equals the
identifier of the last record of the page answered to the immediately
preceding request.  (Without the truthiness proviso the parameter is
omitted: see `fetch_cursor_empty_id_cex`.) -/
theorem fetch_cursor_advances (sd ed : Int)
    (script : List (Except String Page))
    (hids : ∀ e ∈ script, ∀ p : Page, e = Except.ok p →
      truthyOptStr (p.data.getLast?.bind fun ch => ch.id) = true) :
    ((fetchRequests sd ed script).head?.map fun r => r.starting_after) = some none
    ∧ ∀ pr ∈ (fetchRequests sd ed script).tail.zip script,
        ∀ p : Page, pr.2 = Except.ok p →
          pr.1.starting_after = p.data.getLast?.bind fun ch => ch.id := by
  constructor
  · show (((chargesListLoop sd ed none script).1.head?).map
      fun r => r.starting_after) = some none
    rw [chargesListLoop_head]
    rfl
  · exact fun pr hpr => chargesListLoop_tail_zip sd ed script none hids pr hpr

/-- A succeeded charge whose identifier is the empty string. -/
def chargeEmptyId : Charge :=
  { chargeS with
    id := some "" }

/-- A page whose last (only) record has the empty-string identifier. -/
def pageEmptyIdPage : Page := { data := [chargeEmptyId], has_more := true }

/-- A final page. -/
def pageB : Page := { data := [chargeS], has_more := false }

/-- Script for the C9 counterexample: a page ending in an empty-string
identifier, then a final page. -/
def scriptC9 : List (Except String Page) :=
  [Except.ok pageEmptyIdPage, Except.ok pageB]

/-- Counterexample to C9 as stated: after a page whose last record has
identifier `""`, the next request omits `starting_after` (the JS
`if (startingAfter)` guard treats the empty string as falsy) instead of
carrying that identifier. -/
theorem fetch_cursor_empty_id_cex :
    (pageEmptyIdPage.data.getLast?.bind fun ch => ch.id) = some ""
    ∧ ((fetchRequests 0 0 scriptC9)[1]?).map (fun r => r.starting_after) = some none
    ∧ ¬ (((fetchRequests 0 0 scriptC9)[1]?).map (fun r => r.starting_after)
          = some (some "")) := by
  refine ⟨rfl, by decide, by decide⟩

/-- Script for the C9 witness: both pages end in truthy identifiers. -/
def scriptW9 : List (Except String Page) := [Except.ok pageA, Except.ok pageB]

/-! ## C10 — the single-page endpoint ignores its pagination parameters -/

/-- C10.  Two requests to the single-page endpoint that agree on
`startDate` and `endDate` — whatever their `page` and `lastTransactionId`
values — produce identical params for the external `charges.list` call,
and that call never carries `starting_after`. -/
theorem transactions_ignores_page_params (parse : String → Option Int)
    (q1 q2 : TransQuery) (h1 : q1.startDate = q2.startDate)
    (h2 : q1.endDate = q2.endDate) :
    transactionsParams parse q1 = transactionsParams parse q2
    ∧ ∀ r, transactionsParams parse q1 = some r → r.starting_after = none := by
  have key : transactionsParams parse q1 = transactionsParams parse q2 := by
    unfold transactionsParams
    rw [h1, h2]
  refine ⟨key, ?_⟩
  intro r hr
  unfold transactionsParams at hr
  cases hv : validateDates parse q1.startDate q1.endDate with
  | error x => rw [hv] at hr; cases hr
  | ok st_en =>
    rw [hv] at hr
    obtain ⟨st, en⟩ := st_en
    simp only [Option.some.injEq] at hr
    rw [← hr]
    rfl

/-- The date parser fixture: JS `new Date(s).getTime()` for the two dates
of the validation scenario (milliseconds since the epoch). -/
def parseW : String → Option Int := fun s =>
  if s = "2024-02-01" then some 1706745600000
  else if s = "2024-01-01" then some 1704067200000
  else none

/-- A single-page query with `page = 1`. -/
def qW1 : TransQuery :=
  { startDate := some "2024-01-01", endDate := some "2024-02-01",
    page := some "1", lastTransactionId := none }

/-- The same dates with `page = 7` and a `lastTransactionId`. -/
def qW2 : TransQuery :=
  { startDate := some "2024-01-01", endDate := some "2024-02-01",
    page := some "7", lastTransactionId := some "ch_9" }

/-- Witness for C10: differing `page` and `lastTransactionId` yield the
same external request. -/
theorem transactions_ignores_page_params_witness :
    transactionsParams parseW qW1 = transactionsParams parseW qW2
    ∧ qW1.page ≠ qW2.page :=
  ⟨(transactions_ignores_page_params parseW qW1 qW2 rfl rfl).1, by decide⟩

/-! ## C8 — validation errors and their exact messages -/

/-- Validation with a missing `startDate` fails with the exact message. -/
theorem validateDates_missing_start (parse : String → Option Int)
    (endDate : Option String) :
    validateDates parse none endDate
      = .error (.response 400 "startDate is required") := rfl

/-- Validation with both dates present and parseable but inverted fails
with the exact message. -/
theorem validateDates_inverted (parse : String → Option Int) (s1 s2 : String)
    (t1 t2 : Int) (hs1 : s1 ≠ "") (hs2 : s2 ≠ "")
    (hp1 : parse s1 = some t1) (hp2 : parse s2 = some t2) (hlt : t2 < t1) :
    validateDates parse (some s1) (some s2)
      = .error (.response 400 "endDate must be greater than or equal to startDate") := by
  show (if (s1 == "") = true then
      Except.error (HttpResult.response 400 "startDate is required")
    else if (s2 == "") = true then
      Except.error (HttpResult.response 400 "endDate is required")
    else
      match parse s1, parse s2 with
      | some st, some en =>
        if en < st then
          Except.error
            (HttpResult.response 400 "endDate must be greater than or equal to startDate")
        else Except.ok (st, en)
      | _, _ => Except.error (HttpResult.response 400 "Both dates must be valid.")) = _
  rw [if_neg (by simp [hs1]), if_neg (by simp [hs2]), hp1, hp2]
  show (if t2 < t1 then
      Except.error
        (HttpResult.response 400 "endDate must be greater than or equal to startDate")
    else Except.ok (t1, t2)) = _
  rw [if_pos hlt]

/-- C8.  On both endpoints: a missing `startDate` is answered 400 with
exactly "startDate is required", and two present, parseable dates with
`endDate` strictly earlier than `startDate` are answered 400 with exactly
"endDate must be greater than or equal to startDate". -/
theorem validation_error_messages (parse : String → Option Int)
    (q : TransQuery) (q2 : DateQuery) (render : Page → String)
    (call : ChargeListParams → Except String Page)
    (script : List (Except String Page)) :
    (q.startDate = none →
      transactions parse q render call = .response 400 "startDate is required")
    ∧ (q2.startDate = none →
      exportTransactionsToCSV parse q2 script
        = .response 400 "startDate is required")
    ∧ (∀ s1 s2 t1 t2, q.startDate = some s1 → s1 ≠ "" → q.endDate = some s2 →
        s2 ≠ "" → parse s1 = some t1 → parse s2 = some t2 → t2 < t1 →
        transactions parse q render call
          = .response 400 "endDate must be greater than or equal to startDate")
    ∧ (∀ s1 s2 t1 t2, q2.startDate = some s1 → s1 ≠ "" → q2.endDate = some s2 →
        s2 ≠ "" → parse s1 = some t1 → parse s2 = some t2 → t2 < t1 →
        exportTransactionsToCSV parse q2 script
          = .response 400 "endDate must be greater than or equal to startDate") := by
  refine ⟨?_, ?_, ?_, ?_⟩
  · intro h
    unfold transactions
    rw [h, validateDates_missing_start]
  · intro h
    unfold exportTransactionsToCSV
    rw [h, validateDates_missing_start]
  · intro s1 s2 t1 t2 hq1 hs1 hq2 hs2 hp1 hp2 hlt
    unfold transactions
    rw [hq1, hq2, validateDates_inverted parse s1 s2 t1 t2 hs1 hs2 hp1 hp2 hlt]
  · intro s1 s2 t1 t2 hq1 hs1 hq2 hs2 hp1 hp2 hlt
    unfold exportTransactionsToCSV
    rw [hq1, hq2, validateDates_inverted parse s1 s2 t1 t2 hs1 hs2 hp1 hp2 hlt]

/-- A query with `startDate` missing. -/
def qMissing : TransQuery :=
  { startDate := none, endDate := some "2024-01-01", page := none,
    lastTransactionId := none }

/-- An export query with `startDate` missing. -/
def dqMissing : DateQuery := { startDate := none, endDate := some "2024-01-01" }

/-- The inverted-range query of the validation scenario. -/
def qInv : TransQuery :=
  { startDate := some "2024-02-01", endDate := some "2024-01-01", page := none,
    lastTransactionId := none }

/-- The inverted-range export query. -/
def dqInv : DateQuery :=
  { startDate := some "2024-02-01", endDate := some "2024-01-01" }

/-- A trivial page renderer. -/
def renderW : Page → String := fun _ => ""

/-- An external call that answers with a single final page. -/
def callW : ChargeListParams → Except String Page := fun _ => Except.ok pageB

/-- A script with a single final page. -/
def scriptW : List (Except String Page) := [Except.ok pageB]

/-- Witness for C8: the four concrete validation responses. -/
theorem validation_error_messages_witness :
    transactions parseW qMissing renderW callW
      = .response 400 "startDate is required"
    ∧ exportTransactionsToCSV parseW dqMissing scriptW
      = .response 400 "startDate is required"
    ∧ transactions parseW qInv renderW callW
      = .response 400 "endDate must be greater than or equal to startDate"
    ∧ exportTransactionsToCSV parseW dqInv scriptW
      = .response 400 "endDate must be greater than or equal to startDate" :=
  ⟨(validation_error_messages parseW qMissing dqMissing renderW callW scriptW).1 rfl,
   (validation_error_messages parseW qMissing dqMissing renderW callW scriptW).2.1 rfl,
   (validation_error_messages parseW qInv dqInv renderW callW scriptW).2.2.1
     "2024-02-01" "2024-01-01" 1706745600000 1704067200000 rfl (by decide) rfl
     (by decide) (by decide) (by decide) (by decide),
   (validation_error_messages parseW qInv dqInv renderW callW scriptW).2.2.2
     "2024-02-01" "2024-01-01" 1706745600000 1704067200000 rfl (by decide) rfl
     (by decide) (by decide) (by decide) (by decide)⟩

/-! ## C7 — handling of external-source failures -/

/-- C7 (amended).  When the external call fails on a validated request:
the single-page endpoint (whose body is wrapped in try/catch) responds 500
with the generic message, but the CSV export endpoint has no try/catch —
the failure escapes the handler unhandled and no response is sent. -/
theorem fetch_failure_results (parse : String → Option Int) (q : TransQuery)
    (q2 : DateQuery) (render : Page → String)
    (call : ChargeListParams → Except String Page)
    (script : List (Except String Page)) :
    (∀ st en e, validateDates parse q.startDate q.endDate = .ok (st, en) →
      call (singlePageParams st en) = .error e →
      transactions parse q render call
        = .response 500 "An error occurred while fetching transactions")
    ∧ (∀ st en e, validateDates parse q2.startDate q2.endDate = .ok (st, en) →
      fetchTransactions (st.fdiv 1000) (en.fdiv 1000) script = .thrown e →
      exportTransactionsToCSV parse q2 script = .unhandled (.stripe e)) := by
  constructor
  · intro st en e hv hc
    unfold transactions
    rw [hv]
    show (match call (singlePageParams st en) with
      | Except.error _ => HttpResult.response 500 "An error occurred while fetching transactions"
      | Except.ok page => HttpResult.response 200 (render page)) = _
    rw [hc]
  · intro st en e hv hf
    unfold exportTransactionsToCSV
    rw [hv]
    show (match fetchTransactions (st.fdiv 1000) (en.fdiv 1000) script with
      | FetchOutcome.outOfScript => HttpResult.outOfScript
      | FetchOutcome.thrown e => HttpResult.unhandled (.stripe e)
      | FetchOutcome.ok charges =>
        match mapTransactionData charges with
        | Except.error e => HttpResult.unhandled (.js e)
        | Except.ok mapped =>
          match exportCsvStep mapped with
          | Except.error e => HttpResult.unhandled (.js e)
          | Except.ok csv => HttpResult.response 200 csv) = _
    rw [hf]

/-- A valid export query. -/
def dqValid : DateQuery :=
  { startDate := some "2024-01-01", endDate := some "2024-02-01" }

/-- Counterexample to C7 as stated: on the CSV export endpoint a failing
external call does not produce a 500 response (or any response); the error
escapes the handler. -/
theorem export_fetch_failure_no_response_cex :
    exportTransactionsToCSV parseW dqValid [Except.error "network error"]
      = .unhandled (.stripe "network error")
    ∧ exportTransactionsToCSV parseW dqValid [Except.error "network error"]
      ≠ .response 500 "An error occurred while fetching transactions" := by
  exact ⟨by decide, by decide⟩

/-- A valid single-page query. -/
def qValid : TransQuery :=
  { startDate := some "2024-01-01", endDate := some "2024-02-01", page := none,
    lastTransactionId := none }

/-- An external call that always rejects. -/
def callFail : ChargeListParams → Except String Page :=
  fun _ => Except.error "network"

/-- Witness for C7 (amended) at concrete queries and failures. -/
theorem fetch_failure_results_witness :
    transactions parseW qValid renderW callFail
      = .response 500 "An error occurred while fetching transactions"
    ∧ exportTransactionsToCSV parseW dqValid [Except.error "boom"]
      = .unhandled (.stripe "boom") :=
  ⟨(fetch_failure_results parseW qValid dqValid renderW callFail
      [Except.error "boom"]).1 1704067200000 1706745600000 "network"
      rfl rfl,
   (fetch_failure_results parseW qValid dqValid renderW callFail
      [Except.error "boom"]).2 1704067200000 1706745600000 "boom"
      rfl rfl⟩

/-! ## C6 — empty result makes the CSV step throw -/

/-- C6.  The CSV serialization step fails on an empty record sequence
(`Object.keys(mappedData[0])` on `undefined`), and consequently an export
request over a validated range whose collected sequence is empty ends in
that error — not in an empty CSV document. -/
theorem export_empty_throws (parse : String → Option Int) (q2 : DateQuery)
    (script : List (Except String Page)) (st en : Int)
    (hv : validateDates parse q2.startDate q2.endDate = .ok (st, en))
    (hf : fetchTransactions (st.fdiv 1000) (en.fdiv 1000) script = .ok []) :
    exportCsvStep [] = .error .typeError
    ∧ exportTransactionsToCSV parse q2 script = .unhandled (.js .typeError) := by
  refine ⟨rfl, ?_⟩
  unfold exportTransactionsToCSV
  rw [hv]
  show (match fetchTransactions (st.fdiv 1000) (en.fdiv 1000) script with
    | FetchOutcome.outOfScript => HttpResult.outOfScript
    | FetchOutcome.thrown e => HttpResult.unhandled (.stripe e)
    | FetchOutcome.ok charges =>
      match mapTransactionData charges with
      | Except.error e => HttpResult.unhandled (.js e)
      | Except.ok mapped =>
        match exportCsvStep mapped with
        | Except.error e => HttpResult.unhandled (.js e)
        | Except.ok csv => HttpResult.response 200 csv) = _
  rw [hf]
  rfl

/-- An empty final page. -/
def pageEmpty0 : Page := { data := [], has_more := false }

/-- Witness for C6: a validated range whose only page is empty. -/
theorem export_empty_throws_witness :
    exportCsvStep [] = .error .typeError
    ∧ exportTransactionsToCSV parseW dqValid [Except.ok pageEmpty0]
      = .unhandled (.js .typeError) :=
  export_empty_throws parseW dqValid [Except.ok pageEmpty0]
    1704067200000 1706745600000 rfl rfl

/-! ## C4 — amount fields: defaults and division by 100 -/

/-- A successful `mapChargeRecord` is exactly `flatFields` applied to the
three evaluated throwing expressions. -/
theorem mapChargeRecord_ok_shape (c : Charge) (fr : FlatRecord)
    (h : mapChargeRecord c = .ok fr) :
    ∃ iso cu rd, createdField c = .ok iso ∧ currencyField c = .ok cu
      ∧ refundedDateField c = .ok rd ∧ fr = flatFields c iso cu rd := by
  unfold mapChargeRecord at h
  cases h1 : createdField c with
  | error e => rw [h1] at h; cases h
  | ok iso =>
    rw [h1] at h
    cases h2 : currencyField c with
    | error e => rw [h2] at h; cases h
    | ok cu =>
      rw [h2] at h
      cases h3 : refundedDateField c with
      | error e => rw [h3] at h; cases h
      | ok rd =>
        rw [h3] at h
        simp only [Except.ok.injEq] at h
        exact ⟨iso, cu, rd, rfl, rfl, rfl, h.symm⟩

/-- C4 (amended).  In a successfully flattened record: `amount`,
`amount_refunded` and `amount_captured` are divided by 100 when present
but yield `NaN` — not the empty string — when absent;
`balance_transaction.fee` yields `""` only when `balance_transaction`
itself is absent (and `NaN` when it is present without a `fee`);
`application_fee_amount` yields `""` when absent or zero (the `|| ""`
default also swallows a zero fee) and the quotient otherwise;
`dispute.amount` yields `""` when `dispute` is absent and `NaN` when
`dispute` is present without an `amount`. -/
theorem flatten_amount_fields (c : Charge) (fr : FlatRecord)
    (h : mapChargeRecord c = .ok fr) :
    (c.amount = none → fr.amount = .nan)
    ∧ (∀ n, c.amount = some n → fr.amount = .num ((n : Rat) / 100))
    ∧ (c.amount_refunded = none →
        fr.amountRefunded = .nan ∧ fr.convertedAmountRefunded = .nan)
    ∧ (∀ n, c.amount_refunded = some n →
        fr.amountRefunded = .num ((n : Rat) / 100)
        ∧ fr.convertedAmountRefunded = .num ((n : Rat) / 100))
    ∧ (c.amount_captured = none → fr.convertedAmount = .nan)
    ∧ (∀ n, c.amount_captured = some n →
        fr.convertedAmount = .num ((n : Rat) / 100))
    ∧ (c.balance_transaction = none → fr.fee = .str "")
    ∧ (∀ bt, c.balance_transaction = some bt → bt.fee = none → fr.fee = .nan)
    ∧ (∀ bt n, c.balance_transaction = some bt → bt.fee = some n →
        fr.fee = .num ((n : Rat) / 100))
    ∧ (c.application_fee_amount = none → fr.applicationFee = .str "")
    ∧ (c.application_fee_amount = some 0 → fr.applicationFee = .str "")
    ∧ (∀ n, c.application_fee_amount = some n → n ≠ 0 →
        fr.applicationFee = .num ((n : Rat) / 100))
    ∧ (c.dispute = none → fr.disputedAmount = .str "")
    ∧ (∀ d, c.dispute = some d → d.amount = none → fr.disputedAmount = .nan)
    ∧ (∀ d n, c.dispute = some d → d.amount = some n →
        fr.disputedAmount = .num ((n : Rat) / 100)) := by
  obtain ⟨iso, cu, rd, h1, h2, h3, rfl⟩ := mapChargeRecord_ok_shape c fr h
  refine ⟨?_, ?_, ?_, ?_, ?_, ?_, ?_, ?_, ?_, ?_, ?_, ?_, ?_, ?_, ?_⟩
  · intro ha; simp [flatFields, amountVal, jdiv100, ha]
  · intro n ha; simp [flatFields, amountVal, jdiv100, ha]
  · intro ha
    constructor
    · simp [flatFields, amountRefundedVal, jdiv100, ha]
    · simp [flatFields, convertedAmountRefundedVal, jdiv100, ha]
  · intro n ha
    constructor
    · simp [flatFields, amountRefundedVal, jdiv100, ha]
    · simp [flatFields, convertedAmountRefundedVal, jdiv100, ha]
  · intro ha; simp [flatFields, convertedAmountVal, jdiv100, ha]
  · intro n ha; simp [flatFields, convertedAmountVal, jdiv100, ha]
  · intro ha; simp [flatFields, feeVal, ha]
  · intro bt ha hf; simp [flatFields, feeVal, jdiv100, ha, hf]
  · intro bt n ha hf; simp [flatFields, feeVal, jdiv100, ha, hf]
  · intro ha; simp [flatFields, applicationFeeVal, jor, jdiv100, JVal.truthy, ha]
  · intro ha; simp [flatFields, applicationFeeVal, jor, jdiv100, JVal.truthy, ha]
  · intro n ha hn
    have hq : ((n : Rat) / 100) ≠ 0 :=
      div_ne_zero (Int.cast_ne_zero.mpr hn) (by norm_num)
    simp [flatFields, applicationFeeVal, jor, jdiv100, JVal.truthy, ha, hq]
  · intro ha; simp [flatFields, disputedAmountVal, ha]
  · intro d ha hd; simp [flatFields, disputedAmountVal, jdiv100, ha, hd]
  · intro d n ha hd; simp [flatFields, disputedAmountVal, jdiv100, ha, hd]

/-- Counterexample to C4 as stated: a charge with `amount` absent flattens
to `NaN` in the `Amount` column — not the empty string and not zero. -/
theorem flatten_missing_amount_not_empty_cex :
    chargeMin.amount = none
    ∧ (mapChargeRecord chargeMin).map (fun fr => fr.amount) = .ok JVal.nan
    ∧ JVal.nan ≠ JVal.str ""
    ∧ JVal.nan ≠ JVal.num 0 :=
  ⟨rfl, rfl, by decide, by decide⟩

/-- A charge exercising all the amount-field cases at once. -/
def chargeC4 : Charge :=
  { chargeMin with
    amount := some 1234,
    balance_transaction := some { fee := some 56, tax := none },
    application_fee_amount := some 0,
    dispute := some { amount := some 250, reason := some "fraudulent",
                      status := some "lost" } }

/-- Witness for C4 (amended) at a concrete charge. -/
theorem flatten_amount_fields_witness :
    ∃ fr, mapChargeRecord chargeC4 = Except.ok fr
      ∧ fr.amount = JVal.num ((1234 : Rat) / 100)
      ∧ fr.applicationFee = JVal.str ""
      ∧ fr.amountRefunded = JVal.nan := by
  have h : mapChargeRecord chargeC4
      = .ok (flatFields chargeC4 (toISOStringFromMs (0 * 1000))
          ("usd".toUpper) (JVal.str "")) := by
    have h1 : createdField chargeC4 = .ok (toISOStringFromMs (0 * 1000)) := rfl
    have h2 : currencyField chargeC4 = .ok ("usd".toUpper) := rfl
    have h3 : refundedDateField chargeC4 = .ok (.str "") := rfl
    unfold mapChargeRecord
    rw [h1, h2, h3]
  obtain ⟨h1, h2, h3, h4, h5, h6, h7, h8, h9, h10, h11, h12, h13, h14, h15⟩ :=
    flatten_amount_fields chargeC4 _ h
  exact ⟨_, h, h2 1234 rfl, h11 rfl, (h3 rfl).1⟩

/-! ## C5 — determinism and totality on missing optional sub-objects -/

/-- C5 (amended).  `mapChargeRecord` is deterministic; and for a charge
whose required scalars are present (`created` in `Date` range, `currency`)
and whose `refunded` flag is not `true`, flattening succeeds, and each
absent optional nested sub-object yields the documented defaults for the
fields derived from it.  (Without those scalar provisos the mapping throws
on the charge's own missing `created`/`currency`:
see `flatten_missing_created_throws_cex`.) -/
theorem flatten_deterministic_and_total (c : Charge) (t : Int) (cur : String)
    (hc : c.created = some t) (ht : (t * 1000).natAbs ≤ 8640000000000000)
    (hcur : c.currency = some cur) (hr : ¬ c.refunded = some true) :
    (∀ c2 : Charge, mapChargeRecord c2 = mapChargeRecord c2)
    ∧ ∃ fr, mapChargeRecord c = .ok fr
      ∧ (c.payment_method_details = none →
          fr.isLink = .bool false ∧ fr.linkFunding = .str ""
          ∧ fr.paymentSourceType = .str "" ∧ fr.cardId = .str ""
          ∧ fr.cardName = .str "" ∧ fr.cardAddressLine1 = .str ""
          ∧ fr.cardAddressLine2 = .str "" ∧ fr.cardAddressCity = .str ""
          ∧ fr.cardAddressState = .str "" ∧ fr.cardAddressCountry = .str ""
          ∧ fr.cardAddressZip = .str "" ∧ fr.cardAvsLine1Status = .str ""
          ∧ fr.cardAvsZipStatus = .str "" ∧ fr.cardBrand = .str ""
          ∧ fr.cardCvcStatus = .str "" ∧ fr.cardExpMonth = .str ""
          ∧ fr.cardExpYear = .str "" ∧ fr.cardFingerprint = .str ""
          ∧ fr.cardFunding = .str "" ∧ fr.cardIssueCountry = .str ""
          ∧ fr.cardLast4 = .str "" ∧ fr.cardTokenizationMethod = .str "")
      ∧ (∀ pmd, c.payment_method_details = some pmd → pmd.card = none →
          fr.cardId = .str "" ∧ fr.cardName = .str "" ∧ fr.cardBrand = .str ""
          ∧ fr.cardLast4 = .str "")
      ∧ (c.shipping = none →
          fr.shippingName = .str "" ∧ fr.shippingAddressLine1 = .str ""
          ∧ fr.shippingAddressLine2 = .str "" ∧ fr.shippingAddressCity = .str ""
          ∧ fr.shippingAddressState = .str ""
          ∧ fr.shippingAddressCountry = .str ""
          ∧ fr.shippingAddressPostalCode = .str "")
      ∧ (c.dispute = none → fr.disputedAmount = .str ""
          ∧ fr.disputeReason = .str "" ∧ fr.disputeStatus = .str "")
      ∧ (c.metadata = none →
          fr.checkoutCustomField1Key = .str ""
          ∧ fr.checkoutCustomField1Value = .str ""
          ∧ fr.checkoutCustomField2Key = .str ""
          ∧ fr.checkoutCustomField2Value = .str ""
          ∧ fr.checkoutCustomField3Key = .str ""
          ∧ fr.checkoutCustomField3Value = .str ""
          ∧ fr.checkoutLineItemSummary = .str ""
          ∧ fr.checkoutPromotionalConsent = .str ""
          ∧ fr.checkoutTermsOfServiceConsent = .str ""
          ∧ fr.utmCampaign = .str "" ∧ fr.utmContent = .str ""
          ∧ fr.utmMedium = .str "" ∧ fr.utmSource = .str ""
          ∧ fr.utmTerm = .str "" ∧ fr.fund = .str "")
      ∧ (c.balance_transaction = none →
          fr.fee = .str "" ∧ fr.taxesOnFee = .str "")
      ∧ (c.outcome = none → fr.sellerMessage = .str "")
      ∧ (c.billing_details = none → fr.customerPhone = .str "") := by
  have h1 : createdField c = .ok (toISOStringFromMs (t * 1000)) := by
    unfold createdField
    rw [hc]
    show (if (t * 1000).natAbs ≤ 8640000000000000 then
        Except.ok (toISOStringFromMs (t * 1000))
      else Except.error JsError.invalidTimeValue) = _
    rw [if_pos ht]
  have h2 : currencyField c = .ok cur.toUpper := by
    unfold currencyField
    rw [hcur]
  have h3 : refundedDateField c = .ok (.str "") := by
    unfold refundedDateField
    rw [if_neg hr]
  refine ⟨fun c2 => rfl,
    flatFields c (toISOStringFromMs (t * 1000)) cur.toUpper (.str ""),
    ?_, ?_, ?_, ?_, ?_, ?_, ?_, ?_, ?_⟩
  · unfold mapChargeRecord
    rw [h1, h2, h3]
  · intro heq
    simp [flatFields, isLinkVal, linkFundingVal, paymentSourceTypeVal,
      cardIdVal, cardNameVal, cardAddressLine1Val, cardAddressLine2Val,
      cardAddressCityVal, cardAddressStateVal, cardAddressCountryVal,
      cardAddressZipVal, cardAvsLine1StatusVal, cardAvsZipStatusVal,
      cardBrandVal, cardCvcStatusVal, cardExpMonthVal, cardExpYearVal,
      cardFingerprintVal, cardFundingVal, cardIssueCountryVal, cardLast4Val,
      cardTokenizationMethodVal, jor, ostr, onum, JVal.truthy, heq]
  · intro pmd heq hcard
    simp [flatFields, cardIdVal, cardNameVal, cardBrandVal, cardLast4Val,
      jor, ostr, JVal.truthy, heq, hcard]
  · intro heq
    simp [flatFields, shippingNameVal, shippingAddressLine1Val,
      shippingAddressLine2Val, shippingAddressCityVal, shippingAddressStateVal,
      shippingAddressCountryVal, shippingAddressPostalCodeVal,
      jor, ostr, JVal.truthy, heq]
  · intro heq
    simp [flatFields, disputedAmountVal, disputeReasonVal, disputeStatusVal, heq]
  · intro heq
    simp [flatFields, checkoutCustomField1KeyVal, checkoutCustomField1ValueVal,
      checkoutCustomField2KeyVal, checkoutCustomField2ValueVal,
      checkoutCustomField3KeyVal, checkoutCustomField3ValueVal,
      checkoutLineItemSummaryVal, checkoutPromotionalConsentVal,
      checkoutTermsOfServiceConsentVal, utmCampaignVal, utmContentVal,
      utmMediumVal, utmSourceVal, utmTermVal, fundVal,
      jor, ostr, JVal.truthy, heq]
  · intro heq
    simp [flatFields, feeVal, taxesOnFeeVal, heq]
  · intro heq
    simp [flatFields, sellerMessageVal, jor, ostr, JVal.truthy, heq]
  · intro heq
    simp [flatFields, customerPhoneVal, jor, ostr, JVal.truthy, heq]

/-- Counterexample to C5 as stated: the charge with every property absent
lacks all the optional sub-objects, yet flattening it does not return a
record of defaults — it throws (RangeError from the created date). -/
theorem flatten_missing_created_throws_cex :
    emptyCharge.payment_method_details = none
    ∧ mapChargeRecord emptyCharge = .error .invalidTimeValue :=
  ⟨rfl, rfl⟩

/-- Witness for C5 (amended) at the minimal charge. -/
theorem flatten_deterministic_and_total_witness :
    mapChargeRecord chargeMin = mapChargeRecord chargeMin
    ∧ ∃ fr, mapChargeRecord chargeMin = .ok fr ∧ fr.isLink = .bool false
      ∧ fr.disputedAmount = .str "" ∧ fr.sellerMessage = .str "" := by
  obtain ⟨hdet, fr, hok, hpmd, hcard, hship, hdisp, hmeta, hbt, hout, hbill⟩ :=
    flatten_deterministic_and_total chargeMin 0 "usd" rfl (by decide) rfl
      (by decide)
  exact ⟨hdet chargeMin, fr, hok, (hpmd rfl).1, (hdisp rfl).1, hout rfl⟩

/-- Witness for C9 (amended) at a concrete script. -/
theorem fetch_cursor_advances_witness :
    ((fetchRequests 0 0 scriptW9).head?.map fun r => r.starting_after) = some none
    ∧ ∀ pr ∈ (fetchRequests 0 0 scriptW9).tail.zip scriptW9,
        ∀ p : Page, pr.2 = Except.ok p →
          pr.1.starting_after = p.data.getLast?.bind fun ch => ch.id :=
  fetch_cursor_advances 0 0 scriptW9 (by
    intro e he p hep
    rcases List.mem_cons.mp he with rfl | he2
    · injection hep with h
      subst h
      decide
    · rcases List.mem_cons.mp he2 with rfl | he3
      · injection hep with h
        subst h
        decide
      · cases he3)

end AlNoor
